import Mathlib

/-!
Verification of the Twitter account-attribute ZK circuit (Noir source:
`circuits/src/main.nr` and the bundled ecrecover module).

The circuit is a pure function of field elements.  Noir's native `Field`
with the Barretenberg backend is the scalar field of BN254; we embed it as
`Fin pField`.  A failed `assert` aborts witness generation, which we model
by returning `none`; a successful evaluation returns `some` of the public
output.
-/

/-- The BN254 scalar-field modulus: the modulus of Noir's native `Field`
under the Barretenberg proving backend used by this repository. -/
def pField : Nat :=
  21888242871839275222246405745257275088548364400416034343698204186575808495617

instance : NeZero pField := ⟨by decide⟩

/-- A Noir `Field` value: an element of the BN254 scalar field. -/
abbrev F : Type := Fin pField

theorem pField_pos : 0 < pField := by decide

/-- Embed a natural number into the circuit field (reduction mod `pField`),
as happens to any literal or out-of-field input handed to the circuit. -/
def toF (a : Nat) : F := ⟨a % pField, Nat.mod_lt a pField_pos⟩

/-- The `PublicKey` struct of the ecrecover module: a pair of field
elements meant to be the affine coordinates of a secp256k1 point. -/
structure PublicKey where
  x : F
  y : F
deriving DecidableEq

/-- The `ecrecover` function of the bundled module, embedded exactly as
written in the source: it asserts `recovery_id == 0 || recovery_id == 1`,
`signature_r != 0`, `signature_s != 0`, and then returns
`PublicKey { x: signature_r, y: signature_s }` (the source comments call
this return value a placeholder).  `none` models an assertion failure
aborting witness generation. -/
def ecrecover (message_hash signature_r signature_s recovery_id : F) :
    Option PublicKey :=
  if recovery_id = 0 ∨ recovery_id = 1 then
    if signature_r = 0 then none
    else if signature_s = 0 then none
    else some { x := signature_r, y := signature_s }
  else none

/-- The exported `recover` wrapper of the ecrecover module. -/
def recover (message_hash signature_r signature_s recovery_id : F) :
    Option PublicKey :=
  ecrecover message_hash signature_r signature_s recovery_id

namespace Circuit

/-- The top-level circuit `main`, embedded from the source: asserts
`antiquity_days > 150` and `followers > 150` (Field comparison on the
canonical integer representatives), calls `recover`, asserts the recovered
key equals the supplied public key component-wise, and returns `1`. -/
def main (twitter_id_hash antiquity_days followers message_hash
    pub_key_x pub_key_y signature_r signature_s signature_v : F) :
    Option F :=
  if 150 < antiquity_days then
    if 150 < followers then
      match recover message_hash signature_r signature_s signature_v with
      | some pk =>
        if pk.x = pub_key_x then
          if pk.y = pub_key_y then some 1
          else none
        else none
      | none => none
    else none
  else none

/-- The full assignment of values of one circuit evaluation: every input,
every intermediate value (the recovered key), and the public output. -/
structure CircuitWitness where
  twitter_id_hash : F
  antiquity_days : F
  followers : F
  message_hash : F
  pub_key_x : F
  pub_key_y : F
  signature_r : F
  signature_s : F
  signature_v : F
  recovered : PublicKey
  output : F
deriving DecidableEq

/-- The witness produced by one evaluation of `main`: same control flow as
`main`, recording every assigned value; `none` when any assertion fails. -/
def mainWitness (twitter_id_hash antiquity_days followers message_hash
    pub_key_x pub_key_y signature_r signature_s signature_v : F) :
    Option CircuitWitness :=
  if 150 < antiquity_days then
    if 150 < followers then
      match recover message_hash signature_r signature_s signature_v with
      | some pk =>
        if pk.x = pub_key_x then
          if pk.y = pub_key_y then
            some { twitter_id_hash := twitter_id_hash,
                   antiquity_days := antiquity_days,
                   followers := followers,
                   message_hash := message_hash,
                   pub_key_x := pub_key_x,
                   pub_key_y := pub_key_y,
                   signature_r := signature_r,
                   signature_s := signature_s,
                   signature_v := signature_v,
                   recovered := pk,
                   output := 1 }
          else none
        else none
      | none => none
    else none
  else none

/-- Sanity: the public output of `main` is the output slot of the witness. -/
theorem main_eq_mainWitness_output (t a f mh px py r s v : F) :
    main t a f mh px py r s v =
      Option.map CircuitWitness.output (mainWitness t a f mh px py r s v) := by
  unfold main mainWitness
  split
  · split
    · rcases h : recover mh r s v with _ | pk
      · rfl
      · dsimp only
        split
        · split <;> rfl
        · rfl
    · rfl
  · rfl

end Circuit

/-- Modelled from the spec: the secp256k1 curve order `n` (the spec's
`curveOrder`); the source contains no curve arithmetic, so the constant
comes from the spec's description of the secp256k1 recovery algorithm. -/
def nSecp : Nat :=
  115792089237316195423570985008687907852837564279074904382605163141518161494337

/-- Modelled from the spec: the secp256k1 base-field prime, needed to state
the curve equation the spec requires of a recovered point. -/
def pSecp : Nat :=
  115792089237316195423570985008687907853269984665640564039457584007908834671663

/-- Modelled from the spec: the secp256k1 curve equation
`y^2 = x^3 + 7` over the base field, the validity predicate the spec
imposes on a recovered public key. -/
def onCurve (x y : Nat) : Prop := y ^ 2 % pSecp = (x ^ 3 + 7) % pSecp

instance (x y : Nat) : Decidable (onCurve x y) := by
  unfold onCurve; infer_instance

/-- Modelled from the spec: x-coordinate of the secp256k1 generator `G`. -/
def secpGx : Nat :=
  55066263022277343669578718895168534326250603453777594175500187360389116729240

/-- Modelled from the spec: y-coordinate of the secp256k1 generator `G`. -/
def secpGy : Nat :=
  32670510020758816978083085130507043184471273380659243275938904335757337482424

/-- Sanity for the spec-modelled constants: `G` satisfies the curve
equation. -/
theorem generator_onCurve : onCurve secpGx secpGy := by decide

theorem recover_eq_none_of_r (mh r s v : F) (h : r = 0) :
    recover mh r s v = none := by
  subst h
  simp [recover, ecrecover]

theorem recover_eq_none_of_s (mh r s v : F) (h : s = 0) :
    recover mh r s v = none := by
  subst h
  simp [recover, ecrecover]

theorem recover_eq_none_of_v (mh r s v : F) (h : ¬(v = 0 ∨ v = 1)) :
    recover mh r s v = none := by
  simp only [recover, ecrecover, if_neg h]

/-- Modelled from the spec: modular exponentiation by squaring, the
in-circuit field-gadget arithmetic the source omits; the fuel bound covers
every exponent below `2^300`. -/
def powModAux (m b : Nat) : Nat → Nat → Nat
  | 0, _ => 1 % m
  | fuel + 1, e =>
    if e = 0 then 1 % m
    else
      let h := powModAux m b fuel (e / 2)
      if e % 2 = 0 then h * h % m else h * h % m * (b % m) % m

/-- Modelled from the spec: `b ^ e mod m`. -/
def powMod (m b e : Nat) : Nat := powModAux m b 300 e

/-- Modelled from the spec: modular inverse by Fermat, for prime `m`. -/
def invMod (m a : Nat) : Nat := powMod m a (m - 2)

/-- Modelled from the spec: `(a - b) mod m` on naturals. -/
def subMod (m a b : Nat) : Nat := (a % m + (m - b % m)) % m

/-- Modelled from the spec: an affine secp256k1 point or the point at
infinity (`none`). -/
abbrev ECPoint : Type := Option (Nat × Nat)

/-- Modelled from the spec: secp256k1 point doubling over the base field. -/
def ecDouble : Nat × Nat → ECPoint
  | (x, y) =>
    if y % pSecp = 0 then none
    else
      let l := 3 * x % pSecp * x % pSecp * invMod pSecp (2 * y % pSecp) % pSecp
      let x3 := subMod pSecp (l * l) (2 * x)
      some (x3, subMod pSecp (l * subMod pSecp x x3) y)

/-- Modelled from the spec: secp256k1 point addition over the base field. -/
def ecAdd : ECPoint → ECPoint → ECPoint
  | none, Q => Q
  | P, none => P
  | some (x1, y1), some (x2, y2) =>
    if x1 % pSecp = x2 % pSecp then
      if (y1 + y2) % pSecp = 0 then none
      else ecDouble (x1, y1)
    else
      let l := subMod pSecp y2 y1 * invMod pSecp (subMod pSecp x2 x1) % pSecp
      let x3 := subMod pSecp (l * l) (x1 + x2)
      some (x3, subMod pSecp (l * subMod pSecp x1 x3) y1)

/-- Modelled from the spec: double-and-add scalar multiplication; the fuel
bound covers every scalar below `2^300`. -/
def scalarMulAux : Nat → Nat → ECPoint → ECPoint
  | 0, _, _ => none
  | fuel + 1, k, P =>
    if k = 0 then none
    else
      let half := scalarMulAux fuel (k / 2) (ecAdd P P)
      if k % 2 = 1 then ecAdd P half else half

/-- Modelled from the spec: `k · P` on secp256k1. -/
def scalarMul (k : Nat) (P : ECPoint) : ECPoint := scalarMulAux 300 k P

/-- Modelled from the spec: the secp256k1 generator `G`. -/
def secpG : ECPoint := some (secpGx, secpGy)

/-- Modelled from the spec: the public key mathematically derived from a
private key `d`, namely `d · G`. -/
def pubKeyOf (d : Nat) : ECPoint := scalarMul d secpG

/-- Modelled from the spec: the standard ECDSA signing equations over
secp256k1 (`R = k·G`, `r = R.x mod n`, `s = k⁻¹(h + r·d) mod n`), defining
which `(r, s)` pairs are signatures produced by a private key; the source
contains no curve arithmetic at all. -/
def ecdsaSign (d k h : Nat) : Option (Nat × Nat) :=
  match scalarMul k secpG with
  | none => none
  | some (xR, _) =>
    let r := xR % nSecp
    let s := invMod nSecp k * ((h + r * d) % nSecp) % nSecp
    if r = 0 ∨ s = 0 then none else some (r, s)

/-- Modelled from the spec: the standard secp256k1 ECDSA recovery
construction the spec prescribes for `recover` — lift `r` to the curve
point `R` with the y-parity given by the recovery id (`none` when `r` is
not a valid x-coordinate), then `Q = u1·G + u2·R` with
`u1 = -h·r⁻¹ mod n` and `u2 = s·r⁻¹ mod n`. -/
def specRecover (h r s recId : Nat) : ECPoint :=
  let ySq := (r * r % pSecp * r + 7) % pSecp
  let y0 := powMod pSecp ySq ((pSecp + 1) / 4)
  let y := if y0 % 2 = recId % 2 then y0 else pSecp - y0
  if y * y % pSecp = ySq then
    let rInv := invMod nSecp r
    let u1 := subMod nSecp 0 (h * rInv)
    let u2 := s * rInv % nSecp
    ecAdd (scalarMul u1 secpG) (scalarMul u2 (some (r, y)))
  else none

/-- Modelled from the spec: the message hash of the C1 counterexample,
`n - 2*Gx mod n`, chosen so that the recovery scalar `u1` equals 2. -/
def c1MsgHash : Nat :=
  5659563192761508084413547218350839200336357371519716031604788420739928035857

/-- Modelled from the spec: the `s` component of the C1 counterexample,
`3*Gx mod n`, chosen so that the recovery scalar `u2` equals 3. -/
def c1S : Nat :=
  49406699829515835585165171676817695125914246082257878143895398939649188693383

/-- Modelled from the spec: x-coordinate of `5·G` on secp256k1. -/
def secp5Gx : Nat :=
  21505829891763648114329055987619236494102133314575206970830385799158076338148

/-- Modelled from the spec: y-coordinate of `5·G` on secp256k1. -/
def secp5Gy : Nat :=
  98003708678762621233683240503080860129026887322874138805529884920309963580118

set_option maxRecDepth 100000 in
set_option maxHeartbeats 8000000 in
/-- C1: the code, evaluated at a genuine ECDSA signature, does not return
the mathematically derived public key.  With private key `d = 5` and nonce
`k = 1` over `messageHash = n - 2*Gx mod n`, the secp256k1 signing
equations give `r = Gx` (the generator's x-coordinate, unchanged by
reduction mod the curve order) and `s = k⁻¹(h + r·d) = 3*Gx mod n`, with
y-parity `recoveryId = 0` (`Gy` is even) — the first conjunct.  The
mathematically derived public key is `d·G = 5·G` (second conjunct), and
the spec's standard recovery construction (`R` from `r` and the parity,
`u1 = -h·r⁻¹ mod n`, `u2 = s·r⁻¹ mod n`, `Q = u1·G + u2·R`) indeed
returns exactly `5·G` on these inputs (third conjunct).  The source's
`recover` instead returns the raw signature components `(r, s)` (fourth
conjunct), which differ from the derived key in both coordinates, taken
as circuit-field values (fifth conjunct). -/
theorem claim_C1_recovery_divergence :
    ecdsaSign 5 1 c1MsgHash = some (secpGx, c1S) ∧
      pubKeyOf 5 = some (secp5Gx, secp5Gy) ∧
      specRecover c1MsgHash secpGx c1S 0 = some (secp5Gx, secp5Gy) ∧
      recover (toF c1MsgHash) (toF secpGx) (toF c1S) (toF 0) =
        some { x := toF secpGx, y := toF c1S } ∧
      toF secpGx ≠ toF secp5Gx ∧ toF c1S ≠ toF secp5Gy := by
  refine ⟨by decide, by decide, by decide, by decide, by decide, by decide⟩

/-- C2: the pair returned by `recover` need not satisfy the secp256k1
curve equation.  At `messageHash = 0, r = 1, s = 1, recoveryId = 0` the
code succeeds and returns `(1, 1)`, yet `1^2 mod p ≠ 1^3 + 7 mod p`: the
returned pair is not a curve point, contradicting the claimed invariant
(the circuit is satisfiable here, not unsatisfiable). -/
theorem claim_C2_offcurve :
    recover (toF 0) (toF 1) (toF 1) (toF 0) =
        some { x := toF 1, y := toF 1 } ∧
      ¬ onCurve (toF 1).val (toF 1).val := by
  constructor
  · decide
  · decide

/-- C7: `recover` ignores `recovery_id` beyond the membership check: with
`messageHash = 0, r = 2, s = 3` both `recoveryId = 0` and `recoveryId = 1`
succeed and return the identical key `(2, 3)`, contradicting the claim
that flipping the recovery id yields a different key or an unsatisfiable
circuit. -/
theorem claim_C7_recovery_id_ignored :
    recover (toF 0) (toF 2) (toF 3) (toF 0) =
        recover (toF 0) (toF 2) (toF 3) (toF 1) ∧
      recover (toF 0) (toF 2) (toF 3) (toF 0) =
        some { x := toF 2, y := toF 3 } := by
  constructor
  · decide
  · decide

/-- C3: if `antiquity_days ≤ 150` or `followers ≤ 150` the circuit aborts
regardless of all other inputs; and with `antiquity_days = 151`,
`followers = 151` and otherwise-satisfiable signature inputs (recovery id
in {0,1}, nonzero r and s, claimed key matching the recovered one) both
threshold assertions pass and evaluation succeeds with output 1. -/
theorem claim_C3_thresholds :
    (∀ t a f mh px py r s v : F, a ≤ 150 ∨ f ≤ 150 →
        Circuit.main t a f mh px py r s v = none) ∧
      (∀ t mh r s v : F, (v = 0 ∨ v = 1) → r ≠ 0 → s ≠ 0 →
        Circuit.main t 151 151 mh r s r s v = some 1) := by
  constructor
  · intro t a f mh px py r s v h
    unfold Circuit.main
    rcases h with h | h
    · rw [if_neg (not_lt.mpr h)]
    · split
      · rw [if_neg (not_lt.mpr h)]
      · rfl
  · intro t mh r s v hv hr hs
    have h1 : (150 : F) < 151 := by decide
    simp only [Circuit.main, recover, ecrecover, if_pos h1, if_pos hv,
      if_neg hr, if_neg hs, if_pos rfl]
    simp

theorem claim_C3_thresholds_witness :
    Circuit.main 0 150 1000 0 0 0 1 1 0 = none ∧
      Circuit.main 0 151 151 0 1 1 1 1 0 = some 1 :=
  ⟨claim_C3_thresholds.1 0 150 1000 0 0 0 1 1 0 (Or.inl (by decide)),
   claim_C3_thresholds.2 0 0 1 1 0 (Or.inl rfl) (by decide) (by decide)⟩

/-- C4: whenever `recover` returns a key, the circuit aborts if either
component differs from the claimed public key, and (once the threshold
assertions hold) succeeds with output 1 exactly when both components are
equal. -/
theorem claim_C4_binding :
    ∀ t a f mh px py r s v : F, ∀ pk : PublicKey,
      recover mh r s v = some pk →
      ((pk.x ≠ px ∨ pk.y ≠ py) → Circuit.main t a f mh px py r s v = none) ∧
        (150 < a → 150 < f →
          (Circuit.main t a f mh px py r s v = some 1 ↔
            pk.x = px ∧ pk.y = py)) := by
  intro t a f mh px py r s v pk hrec
  constructor
  · intro hne
    simp only [Circuit.main, hrec]
    split
    · split
      · rcases hne with h | h
        · rw [if_neg h]
        · by_cases hx : pk.x = px
          · rw [if_pos hx, if_neg h]
          · rw [if_neg hx]
      · rfl
    · rfl
  · intro ha hf
    simp only [Circuit.main, hrec, if_pos ha, if_pos hf]
    constructor
    · intro h
      by_cases hx : pk.x = px
      · by_cases hy : pk.y = py
        · exact ⟨hx, hy⟩
        · rw [if_pos hx, if_neg hy] at h
          exact absurd h (by simp)
      · rw [if_neg hx] at h
        exact absurd h (by simp)
    · rintro ⟨hx, hy⟩
      rw [if_pos hx, if_pos hy]

theorem claim_C4_binding_witness :
    Circuit.main 0 151 151 0 5 5 1 1 0 = none :=
  (claim_C4_binding 0 151 151 0 5 5 1 1 0 { x := 1, y := 1 }
      (by decide)).1 (Or.inl (by decide))

/-- C5: for every input whose `r` or `s` lies outside `[1, n-1]` (n the
secp256k1 curve order), `recover` aborts.  The source has no explicit
range check, but the circuit field modulus is below n, so the only
representable out-of-range value is 0, which the nonzero assertions
reject; the stated property therefore holds for every input. -/
theorem claim_C5_range :
    ∀ mh r s v : F,
      (¬(1 ≤ r.val ∧ r.val ≤ nSecp - 1) ∨
        ¬(1 ≤ s.val ∧ s.val ≤ nSecp - 1)) →
      recover mh r s v = none := by
  intro mh r s v h
  have hb : ∀ x : F, x.val ≤ nSecp - 1 := fun x =>
    le_of_lt (lt_of_lt_of_le x.isLt (by decide))
  rcases h with h | h
  · have h0 : r.val = 0 := by
      rcases Nat.eq_zero_or_pos r.val with h0 | h0
      · exact h0
      · exact absurd ⟨h0, hb r⟩ h
    exact recover_eq_none_of_r mh r s v (Fin.ext (by simpa using h0))
  · have h0 : s.val = 0 := by
      rcases Nat.eq_zero_or_pos s.val with h0 | h0
      · exact h0
      · exact absurd ⟨h0, hb s⟩ h
    exact recover_eq_none_of_s mh r s v (Fin.ext (by simpa using h0))

theorem claim_C5_range_witness : recover 0 0 1 0 = none :=
  claim_C5_range 0 0 1 0 (Or.inl (by decide))

/-- C6: if the recovery id is neither 0 nor 1, or `r = 0`, or `s = 0`,
then `recover` aborts, independent of all other inputs. -/
theorem claim_C6_nonzero :
    ∀ mh r s v : F, (¬(v = 0 ∨ v = 1) ∨ r = 0 ∨ s = 0) →
      recover mh r s v = none := by
  intro mh r s v h
  rcases h with h | h | h
  · exact recover_eq_none_of_v mh r s v h
  · exact recover_eq_none_of_r mh r s v h
  · exact recover_eq_none_of_s mh r s v h

theorem claim_C6_nonzero_witness : recover 0 1 1 5 = none :=
  claim_C6_nonzero 0 1 1 5 (Or.inl (by decide))

/-- C8: whenever the circuit evaluates successfully, its single public
output is the field element 1; every failure is an abort (`none`), never
an observable other value. -/
theorem claim_C8_output_one :
    ∀ t a f mh px py r s v out : F,
      Circuit.main t a f mh px py r s v = some out → out = 1 := by
  intro t a f mh px py r s v out h
  unfold Circuit.main at h
  repeat' split at h
  all_goals simp_all

theorem claim_C8_output_one_witness : (1 : F) = 1 :=
  claim_C8_output_one 0 151 151 0 1 1 1 1 0 1 (by decide)

/-- C9: the circuit is deterministic: evaluations on componentwise-equal
input tuples produce identical witnesses and identical public outputs;
the embedding is a pure function with no source of randomness. -/
theorem claim_C9_determinism :
    ∀ t a f mh px py r s v t2 a2 f2 mh2 px2 py2 r2 s2 v2 : F,
      t = t2 → a = a2 → f = f2 → mh = mh2 → px = px2 → py = py2 →
      r = r2 → s = s2 → v = v2 →
      Circuit.mainWitness t a f mh px py r s v =
          Circuit.mainWitness t2 a2 f2 mh2 px2 py2 r2 s2 v2 ∧
        Circuit.main t a f mh px py r s v =
          Circuit.main t2 a2 f2 mh2 px2 py2 r2 s2 v2 := by
  intros
  subst_vars
  exact ⟨rfl, rfl⟩

theorem claim_C9_determinism_witness :
    Circuit.mainWitness 0 151 151 0 1 1 1 1 0 =
        Circuit.mainWitness 0 151 151 0 1 1 1 1 0 ∧
      Circuit.main 0 151 151 0 1 1 1 1 0 =
        Circuit.main 0 151 151 0 1 1 1 1 0 :=
  claim_C9_determinism 0 151 151 0 1 1 1 1 0 0 151 151 0 1 1 1 1 0
    rfl rfl rfl rfl rfl rfl rfl rfl rfl

/-- C10: `twitter_id_hash` is unconstrained: the circuit's result (both
satisfiability and the public output) is identical for any two values of
`twitter_id_hash` with all other inputs held fixed. -/
theorem claim_C10_unconstrained :
    ∀ t1 t2 a f mh px py r s v : F,
      Circuit.main t1 a f mh px py r s v =
        Circuit.main t2 a f mh px py r s v := by
  intros
  rfl
